import Mathlib

/-!
Verification of the p1-exporter collector and exporter against its
specification.  The development shallowly embeds `src/main.rs`:

* `P1Metrics` models the metrics store (prometheus_client gauges,
  counters and tariff-keyed families);
* `applyReading` models the body of the `for readout in reader` loop of
  `collect_metrics` (lines 117-178), applying one decoded
  `dsmr5::state::State` to the store;
* `collect_metrics` models the whole function, including the fallible
  `set_read_timeout` call and the early return on a decode failure;
* `collectorRun` models the retry loop spawned by
  `start_metrics_collector`;
* `handleScrape` / `run_metrics_server` model the scrape-serving loop.

Floating point `f64` values are carried verbatim by the program (stored
and re-emitted, never computed with), so they are modelled as `ℚ`.
-/

namespace P1Exporter

/-- The two tariff labels used as family keys: `[("tariff", "low")]` and
`[("tariff", "high")]`. -/
inductive Tariff
  | low
  | high
deriving DecidableEq

/-- Model of a `prometheus_client` `Family` keyed by the tariff label.
A slot is `none` until `get_or_create` has been called for its label;
`clear` removes all slots. -/
structure TariffFamily (α : Type) where
  low : Option α
  high : Option α
deriving DecidableEq

/-- Look a slot up without creating it. -/
def TariffFamily.get {α : Type} (f : TariffFamily α) : Tariff → Option α
  | .low => f.low
  | .high => f.high

/-- `family.get_or_create(&label)` followed by `set`/`store`: the slot for
the label now holds exactly the stored value. -/
def TariffFamily.setSlot {α : Type} (f : TariffFamily α) : Tariff → α → TariffFamily α
  | .low, v => { f with low := some v }
  | .high, v => { f with high := some v }

/-- `family.clear()`: removes every slot. -/
def TariffFamily.clear {α : Type} (_f : TariffFamily α) : TariffFamily α :=
  ⟨none, none⟩

/-- Observing an indicator-gauge slot: a slot that exists yields its
value, a missing slot reads as the gauge default 0 (the value
`get_or_create` would initialise it with). -/
def TariffFamily.read (f : TariffFamily ℤ) (t : Tariff) : ℤ :=
  (f.get t).getD 0

/-- One entry of `dsmr5::state::State::meterreadings`: cumulative energy
delivered to (`to_` in Lean, since `to` is a Lean keyword) and by (`by`, a Rust field whose name is a Lean
keyword, hence `by_`) the customer. -/
structure MeterReading where
  to_ : Option ℚ
  by_ : Option ℚ
deriving DecidableEq

/-- `dsmr5::state::Slave`: an attached sub-device reading. -/
structure Slave where
  device_type : Option ℕ
  meter_reading : Option (ℕ × ℚ)
deriving DecidableEq

/-- The fields of `dsmr5::state::State` that `collect_metrics` consumes.
`meterreadings` is the two-element array indexed `[0]` (low tariff) and
`[1]` (high tariff); `tariff_indicator` is the optional two-byte code. -/
structure State where
  power_delivered : Option ℚ
  power_received : Option ℚ
  meterreadings : MeterReading × MeterReading
  tariff_indicator : Option (ℕ × ℕ)
  slaves : List Slave
deriving DecidableEq

/-- The metrics store `P1Metrics` of `main.rs`: two instantaneous
gauges, two tariff-keyed counter families, the tariff-indicator gauge
family and the gas counter. -/
structure P1Metrics where
  power_consumed : ℚ
  power_produced : ℚ
  power_consumed_total : TariffFamily ℚ
  power_produced_total : TariffFamily ℚ
  active_tariff : TariffFamily ℤ
  gas_consumed_total : ℚ
deriving DecidableEq

/-- `P1Metrics::default()`: gauges and counters start at 0, families
start empty. -/
def P1Metrics.init : P1Metrics :=
  ⟨0, 0, ⟨none, none⟩, ⟨none, none⟩, ⟨none, none⟩, 0⟩

instance : Inhabited P1Metrics := ⟨P1Metrics.init⟩

/-- Lines 117-122: update the instantaneous gauges from
`state.power_delivered` and `state.power_received` when populated. -/
def updatePowerGauges (m : P1Metrics) (state : State) : P1Metrics :=
  let m1 := match state.power_delivered with
    | some pd => { m with power_consumed := pd }
    | none => m
  match state.power_received with
  | some pd => { m1 with power_produced := pd }
  | none => m1

/-- Lines 124-152: store the populated cumulative energy readings into
the per-tariff counter slots (`store` of the raw bits sets the counter to
the meter's value verbatim). -/
def updateEnergyCounters (m : P1Metrics) (state : State) : P1Metrics :=
  let m1 := match state.meterreadings.1.to_ with
    | some pd => { m with power_consumed_total := m.power_consumed_total.setSlot .low pd }
    | none => m
  let m2 := match state.meterreadings.2.to_ with
    | some pd => { m1 with power_consumed_total := m1.power_consumed_total.setSlot .high pd }
    | none => m1
  let m3 := match state.meterreadings.1.by_ with
    | some pd => { m2 with power_produced_total := m2.power_produced_total.setSlot .low pd }
    | none => m2
  match state.meterreadings.2.by_ with
  | some pd => { m3 with power_produced_total := m3.power_produced_total.setSlot .high pd }
  | none => m3

/-- Lines 154-165: `metrics.active_tariff.clear()` happens
unconditionally, then the matched indicator slot (if any) is set to 1. -/
def updateActiveTariff (m : P1Metrics) (state : State) : P1Metrics :=
  let m1 := { m with active_tariff := m.active_tariff.clear }
  match state.tariff_indicator with
  | some (0, 1) => { m1 with active_tariff := m1.active_tariff.setSlot .low 1 }
  | some (0, 2) => { m1 with active_tariff := m1.active_tariff.setSlot .high 1 }
  | _ => m1

/-- Body of the `for sl in state.slaves` loop (lines 167-178): a slave
with `device_type == Some(3)` and a present meter reading stores the gas
value; every other slave leaves the store untouched. -/
def gasStep (m : P1Metrics) (sl : Slave) : P1Metrics :=
  match sl with
  | ⟨some 3, some (_, gd)⟩ => { m with gas_consumed_total := gd }
  | _ => m

/-- Lines 167-178: fold the slave loop over `state.slaves`. -/
def updateGas (m : P1Metrics) (state : State) : P1Metrics :=
  state.slaves.foldl gasStep m

/-- The full body of the readout loop of `collect_metrics`
(lines 117-178) for one decoded state. -/
def applyReading (m : P1Metrics) (state : State) : P1Metrics :=
  updateGas (updateActiveTariff (updateEnergyCounters (updatePowerGauges m state) state) state) state

/-- Decode failures of the dsmr5 crate: `readout.to_telegram()` fails on
a malformed frame or checksum mismatch, and
`Result::<State>::from(&telegram)` fails on an invalid conversion. -/
inductive DsmrError
  | invalidFormat
  | invalidChecksum
  | invalidConversion
deriving DecidableEq

/-- The outcome of decoding one readout pulled from the reader:
either a decoded `State` or the first error of the
`to_telegram`/`State::from` pipeline. -/
abbrev ReadoutResult := Except DsmrError State

/-- `true` exactly on successfully decoded readouts. -/
def readoutOk : ReadoutResult → Bool
  | .ok _ => true
  | .error _ => false

/-- The errors `collect_metrics` can return: the initial
`set_read_timeout(...)?` failing, or a decode failure mapped into
`io::Error` by the two `map_err` calls. -/
inductive CollectError
  | setReadTimeoutFailed
  | decodeFailed (e : DsmrError)
deriving DecidableEq

/-- The `for readout in reader` loop: apply each decoded state in order;
stop at the first decode failure (the `?` operators at lines 113 and
115) and report it, leaving the store as the valid prefix left it. -/
def collectLoop : List ReadoutResult → P1Metrics → Option DsmrError × P1Metrics
  | [], m => (none, m)
  | .ok s :: rest, m => collectLoop rest (applyReading m s)
  | .error e :: _, m => (some e, m)

/-- `collect_metrics` (lines 106-182): the `set_read_timeout` call can
fail and is propagated by `?`; otherwise the readout loop runs over the
per-connection stream and the function returns `Ok(())` when the stream
ends without a decode failure.  The second component is the metrics
store after the call (the Rust function mutates it in place). -/
def collect_metrics (setReadTimeoutOk : Bool) (stream : List ReadoutResult)
    (m : P1Metrics) : Except CollectError Unit × P1Metrics :=
  if setReadTimeoutOk then
    match collectLoop stream m with
    | (none, m1) => (.ok (), m1)
    | (some e, m1) => (.error (.decodeFailed e), m1)
  else (.error .setReadTimeoutFailed, m)

/-- Kinds of I/O errors on the socket. -/
inductive IOErrorKind
  | timedOut
  | connectionReset
  | unexpectedEof
deriving DecidableEq

/-- `sock.bytes().map_while(|b| b.ok())` (line 108): the byte sequence
fed to the dsmr5 reader ends silently at the first read error. -/
def bytesMapWhileOk : List (Except IOErrorKind ℕ) → List ℕ
  | [] => []
  | .ok b :: rest => b :: bytesMapWhileOk rest
  | .error _ :: _ => []

/-- One iteration of the loop in `start_metrics_collector`
(lines 91-103): either `TcpStream::connect` failed, or it succeeded and
`collect_metrics` ran over that connection's readout stream (with the
given `set_read_timeout` outcome). -/
inductive ConnAttempt
  | connectFailed (e : IOErrorKind)
  | connected (setReadTimeoutOk : Bool) (stream : List ReadoutResult)

/-- One pass through the loop body: on a connect failure the error is
only logged; on a connection the metrics are collected and any error is
only logged.  Either way the thread then sleeps for 5 seconds.  The
returned number is that sleep duration in seconds. -/
def collectorIter (m : P1Metrics) : ConnAttempt → P1Metrics × ℕ
  | .connectFailed _ => (m, 5)
  | .connected st stream => ((collect_metrics st stream m).2, 5)

/-- The retry loop of `start_metrics_collector`, run over a finite
prefix of connection attempts: the final store together with the list of
sleep durations taken after each attempt. -/
def collectorRun (m : P1Metrics) : List ConnAttempt → P1Metrics × List ℕ
  | [] => (m, [])
  | a :: rest =>
    let step := collectorIter m a
    let next := collectorRun step.1 rest
    (next.1, step.2 :: next.2)

/-- The content-type header attached to successful scrape responses
(line 185). -/
def openMetricsContentType : String :=
  "Content-Type: application/openmetrics-text; version=1.0.0; charset=utf-8"

/-- The default header `tiny_http::Response::from_string` attaches. -/
def textPlainContentType : String :=
  "Content-Type: text/plain; charset=UTF-8"

/-- A tiny_http response as far as the spec observes it: status code,
body, and the list of headers. -/
structure HttpResponse where
  status_code : ℕ
  body : String
  headers : List String
deriving DecidableEq

/-- The outcome of `encode(&mut body, &registry)`: `Ok(())` with the
text written into `body`, or the `std::fmt::Error` unit error. -/
inductive EncodeOutcome
  | ok (body : String)
  | fmtError
deriving DecidableEq

/-- `format!("{}", err)` for `err : std::fmt::Error`: the fixed Display
message of `core::fmt::Error`. -/
def fmtErrorMessage : String :=
  "an error occurred when formatting an argument"

/-- `tiny_http::Response::from_string`: status 200 with a default
text/plain content-type header. -/
def response_from_string (s : String) : HttpResponse :=
  ⟨200, s, [textPlainContentType]⟩

/-- `Response::with_header`: appends a header. -/
def HttpResponse.with_header (r : HttpResponse) (h : String) : HttpResponse :=
  { r with headers := r.headers ++ [h] }

/-- `Response::with_status_code`: replaces the status code. -/
def HttpResponse.with_status_code (r : HttpResponse) (c : ℕ) : HttpResponse :=
  { r with status_code := c }

/-- The response built for one scrape request (lines 191-195). -/
def handleScrape : EncodeOutcome → HttpResponse
  | .ok body => (response_from_string body).with_header openMetricsContentType
  | .fmtError => (response_from_string fmtErrorMessage).with_status_code 500

/-- The request loop of `run_metrics_server` (lines 190-199): each
incoming request gets exactly one response; a delivery failure is logged
and does not stop the loop. -/
def run_metrics_server (encodings : List EncodeOutcome) : List HttpResponse :=
  encodings.map handleScrape

/-- A Reading populating no field at all. -/
def emptyReading : State :=
  ⟨none, none, (⟨none, none⟩, ⟨none, none⟩), none, []⟩

/-- A Reading whose only populated field is the low-tariff indicator. -/
def lowTariffReading : State :=
  { emptyReading with tariff_indicator := some (0, 1) }

/-- A Reading whose only populated field is the high-tariff indicator. -/
def highTariffReading : State :=
  { emptyReading with tariff_indicator := some (0, 2) }

/-- A Reading whose only populated field is instantaneous consumed
power. -/
def powerReading (v : ℚ) : State :=
  { emptyReading with power_delivered := some v }

/-- A Reading populating only the low-tariff delivered energy. -/
def energyLowReading (v : ℚ) : State :=
  { emptyReading with meterreadings := (⟨some v, none⟩, ⟨none, none⟩) }

/-- A Reading populating only the high-tariff delivered energy. -/
def energyHighReading (v : ℚ) : State :=
  { emptyReading with meterreadings := (⟨none, none⟩, ⟨some v, none⟩) }

/-- A Reading carrying only a gas-meter (device type 3) slave reading. -/
def gasSlaveReading (ts : ℕ) (v : ℚ) : State :=
  { emptyReading with slaves := [⟨some 3, some (ts, v)⟩] }

/-- A Reading carrying only a non-gas slave (device type 2, e.g. a water
meter) with a present reading. -/
def waterSlaveReading (ts : ℕ) (v : ℚ) : State :=
  { emptyReading with slaves := [⟨some 2, some (ts, v)⟩] }

/-- Overwrite semantics of a populated optional field: a populated value
replaces the slot, an absent one keeps the old slot. -/
def slotUpd {α : Type} (new : Option α) (old : Option α) : Option α :=
  match new with
  | some v => some v
  | none => old

/-- The tariff-indicator family a single reading leaves behind,
regardless of the previous family contents. -/
def tariffFamilyOf (ti : Option (ℕ × ℕ)) : TariffFamily ℤ :=
  match ti with
  | some (0, 1) => ⟨some 1, none⟩
  | some (0, 2) => ⟨none, some 1⟩
  | _ => ⟨none, none⟩

/-- The gas counter value after one slave is processed. -/
def gasValue (g : ℚ) (sl : Slave) : ℚ :=
  match sl with
  | ⟨some 3, some (_, gd)⟩ => gd
  | _ => g

theorem updatePowerGauges_eq (m : P1Metrics) (s : State) :
    updatePowerGauges m s = { m with
      power_consumed := s.power_delivered.getD m.power_consumed,
      power_produced := s.power_received.getD m.power_produced } := by
  unfold updatePowerGauges
  cases s.power_delivered <;> cases s.power_received <;> rfl

theorem updateEnergyCounters_eq (m : P1Metrics) (s : State) :
    updateEnergyCounters m s = { m with
      power_consumed_total :=
        ⟨slotUpd s.meterreadings.1.to_ m.power_consumed_total.low,
         slotUpd s.meterreadings.2.to_ m.power_consumed_total.high⟩,
      power_produced_total :=
        ⟨slotUpd s.meterreadings.1.by_ m.power_produced_total.low,
         slotUpd s.meterreadings.2.by_ m.power_produced_total.high⟩ } := by
  unfold updateEnergyCounters slotUpd
  cases s.meterreadings.1.to_ <;> cases s.meterreadings.2.to_ <;>
    cases s.meterreadings.1.by_ <;> cases s.meterreadings.2.by_ <;> rfl

theorem updateActiveTariff_eq (m : P1Metrics) (s : State) :
    updateActiveTariff m s = { m with active_tariff := tariffFamilyOf s.tariff_indicator } := by
  unfold updateActiveTariff tariffFamilyOf
  split <;> rfl

theorem gasStep_eq (m : P1Metrics) (sl : Slave) :
    gasStep m sl = { m with gas_consumed_total := gasValue m.gas_consumed_total sl } := by
  unfold gasStep gasValue
  split <;> rfl

theorem foldl_gasStep_eq (l : List Slave) (m : P1Metrics) :
    List.foldl gasStep m l
      = { m with gas_consumed_total := List.foldl gasValue m.gas_consumed_total l } := by
  induction l generalizing m with
  | nil => rfl
  | cons sl rest ih =>
    rw [List.foldl_cons, List.foldl_cons, ih, gasStep_eq]

theorem updateGas_eq (m : P1Metrics) (s : State) :
    updateGas m s
      = { m with gas_consumed_total := List.foldl gasValue m.gas_consumed_total s.slaves } :=
  foldl_gasStep_eq s.slaves m

/-- Per-field characterisation of applying one reading: gauges and
counter slots follow populated-field overwrite semantics, the active
tariff family is rebuilt from the indicator alone, and the gas counter
folds over the slave list. -/
theorem applyReading_eq (m : P1Metrics) (s : State) :
    applyReading m s = {
      power_consumed := s.power_delivered.getD m.power_consumed,
      power_produced := s.power_received.getD m.power_produced,
      power_consumed_total :=
        ⟨slotUpd s.meterreadings.1.to_ m.power_consumed_total.low,
         slotUpd s.meterreadings.2.to_ m.power_consumed_total.high⟩,
      power_produced_total :=
        ⟨slotUpd s.meterreadings.1.by_ m.power_produced_total.low,
         slotUpd s.meterreadings.2.by_ m.power_produced_total.high⟩,
      active_tariff := tariffFamilyOf s.tariff_indicator,
      gas_consumed_total := List.foldl gasValue m.gas_consumed_total s.slaves } := by
  unfold applyReading
  rw [updatePowerGauges_eq, updateEnergyCounters_eq, updateActiveTariff_eq, updateGas_eq]

/-- A slave that is not a gas meter with a present reading leaves the
gas value alone. -/
theorem gasValue_of_not_gas (g : ℚ) (sl : Slave)
    (h : sl.device_type ≠ some 3 ∨ sl.meter_reading = none) :
    gasValue g sl = g := by
  unfold gasValue
  split
  · simp at h
  · rfl

theorem foldl_gasValue_of_not_gas (l : List Slave) (g : ℚ)
    (h : ∀ sl ∈ l, sl.device_type ≠ some 3 ∨ sl.meter_reading = none) :
    List.foldl gasValue g l = g := by
  induction l generalizing g with
  | nil => rfl
  | cons sl rest ih =>
    rw [List.foldl_cons, gasValue_of_not_gas g sl (h sl (List.mem_cons_self sl rest))]
    exact ih g fun x hx => h x (List.mem_cons_of_mem sl hx)

theorem foldl_gasValue_append_gas (l : List Slave) (g : ℚ) (ts : ℕ) (v : ℚ) :
    List.foldl gasValue g (l ++ [⟨some 3, some (ts, v)⟩]) = v := by
  rw [List.foldl_append]
  rfl

/-- Processing a prefix of successfully decoded readouts folds them into
the store and continues with the rest of the stream. -/
theorem collectLoop_ok_front (valid : List State) (rest : List ReadoutResult)
    (m : P1Metrics) :
    collectLoop (valid.map Except.ok ++ rest) m
      = collectLoop rest (valid.foldl applyReading m) := by
  induction valid generalizing m with
  | nil => rfl
  | cons s tail ih =>
    rw [List.map_cons, List.cons_append, List.foldl_cons]
    exact ih (applyReading m s)

/-- The readout loop finishes without error exactly when every element
of the stream decodes successfully. -/
theorem collectLoop_none_iff (stream : List ReadoutResult) (m : P1Metrics) :
    (collectLoop stream m).1 = none ↔ stream.all readoutOk = true := by
  induction stream generalizing m with
  | nil => simp [collectLoop]
  | cons r rest ih =>
    cases r with
    | ok s => simp [collectLoop, readoutOk, ih (applyReading m s)]
    | error e => simp [collectLoop, readoutOk]

/-- The retry loop sleeps exactly 5 seconds after every attempt. -/
theorem collectorRun_delays (m : P1Metrics) (attempts : List ConnAttempt) :
    (collectorRun m attempts).2 = List.replicate attempts.length 5 := by
  induction attempts generalizing m with
  | nil => rfl
  | cons a rest ih =>
    simp only [collectorRun, List.length_cons, List.replicate_succ]
    cases a <;> simp [collectorIter, ih]

/-- The retry loop keeps going: running it over a longer attempt list is
running it over the prefix and then continuing from the reached store. -/
theorem collectorRun_append (m : P1Metrics) (as bs : List ConnAttempt) :
    (collectorRun m (as ++ bs)).1 = (collectorRun (collectorRun m as).1 bs).1 := by
  induction as generalizing m with
  | nil => rfl
  | cons a rest ih =>
    simp only [List.cons_append, collectorRun]
    exact ih (collectorIter m a).1

/-- An I/O read error truncates the byte stream at that point. -/
theorem bytesMapWhileOk_truncates (bs : List ℕ) (e : IOErrorKind)
    (rest : List (Except IOErrorKind ℕ)) :
    bytesMapWhileOk (bs.map Except.ok ++ Except.error e :: rest) = bs := by
  induction bs with
  | nil => rfl
  | cons b tail ih =>
    rw [List.map_cons, List.cons_append]
    simpa [bytesMapWhileOk] using ih

/-- C1, counterexample: a Reading with no populated tariff indicator
does NOT leave the active-tariff slots unchanged — line 154 clears the
family unconditionally, so the slot set by a previous low-tariff reading
is gone after applying an all-absent Reading. -/
theorem apply_reading_frame_counterexample :
    emptyReading.tariff_indicator = none
  ∧ (applyReading (applyReading P1Metrics.init lowTariffReading) emptyReading).active_tariff
      ≠ (applyReading P1Metrics.init lowTariffReading).active_tariff := by
  decide

/-- C1, amended: every field of the store other than the active-tariff
family follows populated-only update semantics (an absent field keeps
its previous value); the active-tariff family instead is rebuilt on
every Reading: cleared, then the indicated slot (if the indicator is
`[0,1]` or `[0,2]`) set to 1, so a Reading without a usable indicator
leaves it empty. -/
theorem apply_reading_frame_amended (m : P1Metrics) (s : State) :
    (s.power_delivered = none → (applyReading m s).power_consumed = m.power_consumed)
  ∧ (s.power_received = none → (applyReading m s).power_produced = m.power_produced)
  ∧ (s.meterreadings.1.to_ = none →
      (applyReading m s).power_consumed_total.low = m.power_consumed_total.low)
  ∧ (s.meterreadings.2.to_ = none →
      (applyReading m s).power_consumed_total.high = m.power_consumed_total.high)
  ∧ (s.meterreadings.1.by_ = none →
      (applyReading m s).power_produced_total.low = m.power_produced_total.low)
  ∧ (s.meterreadings.2.by_ = none →
      (applyReading m s).power_produced_total.high = m.power_produced_total.high)
  ∧ ((∀ sl ∈ s.slaves, sl.device_type ≠ some 3 ∨ sl.meter_reading = none) →
      (applyReading m s).gas_consumed_total = m.gas_consumed_total)
  ∧ (applyReading m s).active_tariff = tariffFamilyOf s.tariff_indicator := by
  rw [applyReading_eq]
  exact ⟨fun h => by simp [h, slotUpd], fun h => by simp [h, slotUpd],
    fun h => by simp [h, slotUpd], fun h => by simp [h, slotUpd],
    fun h => by simp [h, slotUpd], fun h => by simp [h, slotUpd],
    fun h => foldl_gasValue_of_not_gas s.slaves m.gas_consumed_total h, rfl⟩

/-- Witness for the amended C1 theorem at a concrete Reading carrying
only a water-meter slave. -/
theorem apply_reading_frame_amended_witness :
    (applyReading P1Metrics.init (waterSlaveReading 7 5)).power_consumed
        = P1Metrics.init.power_consumed
  ∧ (applyReading P1Metrics.init (waterSlaveReading 7 5)).gas_consumed_total
        = P1Metrics.init.gas_consumed_total
  ∧ (applyReading P1Metrics.init (waterSlaveReading 7 5)).active_tariff
      = tariffFamilyOf (waterSlaveReading 7 5).tariff_indicator :=
  ⟨(apply_reading_frame_amended P1Metrics.init (waterSlaveReading 7 5)).1 rfl,
   (apply_reading_frame_amended P1Metrics.init (waterSlaveReading 7 5)).2.2.2.2.2.2.1
     (by decide),
   (apply_reading_frame_amended P1Metrics.init (waterSlaveReading 7 5)).2.2.2.2.2.2.2⟩

/-- C2, counterexample: after a high-tariff Reading the high slot reads
1, but a subsequent Reading with NO tariff indicator clears the family
(line 154), so the high slot reads 0 again even though no Reading with a
tariff indicator has been applied in between. -/
theorem active_tariff_not_persistent_counterexample :
    emptyReading.tariff_indicator = none
  ∧ (applyReading P1Metrics.init highTariffReading).active_tariff.read .high = 1
  ∧ (applyReading (applyReading P1Metrics.init highTariffReading) emptyReading).active_tariff.read .high
      = 0 := by
  decide

/-- C2, amended: immediately after applying a Reading whose tariff
indicator selects tariff t, the slot for t reads 1 and the other slot
reads 0; since the store only changes when a Reading is applied, this
holds for every read until the NEXT Reading of any kind is applied (a
subsequent Reading without an indicator clears both slots, so the
original "until the next Reading with a tariff indicator" bound does not
hold).  The slots are in any case never both 1. -/
theorem active_tariff_exclusive_amended (m : P1Metrics) (s : State) :
    (s.tariff_indicator = some (0, 1) →
      (applyReading m s).active_tariff.read .low = 1
        ∧ (applyReading m s).active_tariff.read .high = 0)
  ∧ (s.tariff_indicator = some (0, 2) →
      (applyReading m s).active_tariff.read .high = 1
        ∧ (applyReading m s).active_tariff.read .low = 0)
  ∧ ((applyReading m s).active_tariff.read .low = 0
        ∨ (applyReading m s).active_tariff.read .high = 0) := by
  rw [applyReading_eq]
  refine ⟨fun h => ?_, fun h => ?_, ?_⟩
  · rw [h]; exact ⟨rfl, rfl⟩
  · rw [h]; exact ⟨rfl, rfl⟩
  · unfold tariffFamilyOf
    split <;> simp [TariffFamily.read, TariffFamily.get]

/-- Witness for the amended C2 theorem at a concrete high-tariff
Reading. -/
theorem active_tariff_exclusive_amended_witness :
    (applyReading P1Metrics.init highTariffReading).active_tariff.read .high = 1
  ∧ (applyReading P1Metrics.init highTariffReading).active_tariff.read .low = 0 :=
  (active_tariff_exclusive_amended P1Metrics.init highTariffReading).2.1 rfl

/-- C3: a decode failure mid-stream makes collect_metrics return the
error (aborting the connection), the store keeps exactly the values the
valid prefix of Readings produced (the failure alters nothing), and the
collector loop goes on to process every later connection attempt,
sleeping the fixed delay each time — the process does not terminate. -/
theorem decode_failure_aborts_connection (m : P1Metrics) (valid : List State)
    (e : DsmrError) (rest : List ReadoutResult) (later : List ConnAttempt) :
    (collect_metrics true (valid.map Except.ok ++ Except.error e :: rest) m).1
        = Except.error (CollectError.decodeFailed e)
  ∧ (collect_metrics true (valid.map Except.ok ++ Except.error e :: rest) m).2
        = valid.foldl applyReading m
  ∧ (collectorRun m
        (ConnAttempt.connected true (valid.map Except.ok ++ Except.error e :: rest) :: later)).2
        = List.replicate (later.length + 1) 5 := by
  have hloop : collectLoop (valid.map Except.ok ++ Except.error e :: rest) m
      = (some e, valid.foldl applyReading m) := by
    rw [collectLoop_ok_front]
    rfl
  refine ⟨?_, ?_, ?_⟩
  · simp [collect_metrics, hloop]
  · simp [collect_metrics, hloop]
  · rw [collectorRun_delays]
    simp

/-- C4: every scrape request gets exactly one response; a successful
encoding yields status 200 with the encoded body and the OpenMetrics
1.0.0 content-type header; an encoding failure yields status 500 with a
non-empty body (the formatter error message), and the loop keeps serving
all requests. -/
theorem scrape_response_spec (encodings : List EncodeOutcome) (body : String) :
    (run_metrics_server encodings).length = encodings.length
  ∧ handleScrape (EncodeOutcome.ok body)
      = ⟨200, body, [textPlainContentType, openMetricsContentType]⟩
  ∧ openMetricsContentType ∈ (handleScrape (EncodeOutcome.ok body)).headers
  ∧ (handleScrape EncodeOutcome.fmtError).status_code = 500
  ∧ (handleScrape EncodeOutcome.fmtError).body ≠ "" := by
  refine ⟨by simp [run_metrics_server], rfl, by simp [handleScrape, response_from_string,
    HttpResponse.with_header], rfl, by decide⟩

/-- C5, counterexample: applying a Reading whose only populated field is
instantaneous consumed power = 1.234 kW does NOT leave every other field
unchanged: it clears the active-tariff family (line 154), changing the
family a previous low-tariff Reading had populated. -/
theorem power_reading_frame_counterexample :
    (powerReading (1234 / 1000)).power_delivered = some (1234 / 1000)
  ∧ (powerReading (1234 / 1000)).tariff_indicator = none
  ∧ (applyReading (applyReading P1Metrics.init lowTariffReading)
        (powerReading (1234 / 1000))).active_tariff
      ≠ (applyReading P1Metrics.init lowTariffReading).active_tariff := by
  exact ⟨rfl, rfl, by decide⟩

/-- C5, amended: applying a Reading whose only populated field is
instantaneous consumed power = 1.234 kW sets the power_consumed gauge to
exactly 1.234 and leaves every other field unchanged EXCEPT the
active-tariff family, which is cleared because the Reading carries no
tariff indicator. -/
theorem power_reading_updates_gauge_amended (m : P1Metrics) :
    (applyReading m (powerReading (1234 / 1000))).power_consumed = 1234 / 1000
  ∧ (applyReading m (powerReading (1234 / 1000))).power_produced = m.power_produced
  ∧ (applyReading m (powerReading (1234 / 1000))).power_consumed_total
      = m.power_consumed_total
  ∧ (applyReading m (powerReading (1234 / 1000))).power_produced_total
      = m.power_produced_total
  ∧ (applyReading m (powerReading (1234 / 1000))).gas_consumed_total
      = m.gas_consumed_total
  ∧ (applyReading m (powerReading (1234 / 1000))).active_tariff
      = TariffFamily.mk none none := by
  exact ⟨rfl, rfl, rfl, rfl, rfl, rfl⟩

/-- C6: the per-tariff energy slots are independent: a Reading with
low-tariff delivered energy 1000.5 kWh sets the low slot to 1000.5, and
a subsequent Reading populating only the high-tariff energy sets the
high slot while leaving the low slot at 1000.5. -/
theorem energy_slots_independent (m : P1Metrics) (w : ℚ) :
    (applyReading m (energyLowReading (10005 / 10))).power_consumed_total.low
        = some (10005 / 10)
  ∧ (applyReading (applyReading m (energyLowReading (10005 / 10)))
        (energyHighReading w)).power_consumed_total.low = some (10005 / 10)
  ∧ (applyReading (applyReading m (energyLowReading (10005 / 10)))
        (energyHighReading w)).power_consumed_total.high = some w := by
  exact ⟨rfl, rfl, rfl⟩

/-- C7: the gas counter is updated only by a slave whose device type is
the gas-meter code 3 with a present (timestamp, value) reading — a
Reading all of whose slaves fail that test leaves the gas counter
unchanged, while appending a gas-meter slave stores its value. -/
theorem gas_counter_gas_slaves_only (m : P1Metrics) (s : State) (ts : ℕ) (v : ℚ) :
    ((∀ sl ∈ s.slaves, sl.device_type ≠ some 3 ∨ sl.meter_reading = none) →
      (applyReading m s).gas_consumed_total = m.gas_consumed_total)
  ∧ (applyReading m
        { s with slaves := s.slaves ++ [⟨some 3, some (ts, v)⟩] }).gas_consumed_total
      = v := by
  constructor
  · intro h
    rw [applyReading_eq]
    exact foldl_gasValue_of_not_gas s.slaves m.gas_consumed_total h
  · rw [applyReading_eq]
    exact foldl_gasValue_append_gas s.slaves m.gas_consumed_total ts v

/-- Witness for C7 at a Reading carrying only a water-meter slave. -/
theorem gas_counter_gas_slaves_only_witness :
    (applyReading P1Metrics.init (waterSlaveReading 1 9)).gas_consumed_total
        = P1Metrics.init.gas_consumed_total :=
  (gas_counter_gas_slaves_only P1Metrics.init (waterSlaveReading 1 9) 0 0).1 (by decide)

/-- C8: cumulative counters store the meter's reported absolute value
verbatim: a populated energy slot ends up holding exactly the reported
value regardless of what was stored before, and two successive readings
store the second value even when it is lower (no monotonicity
correction), for the energy slots and for gas alike. -/
theorem counters_pass_through (m : P1Metrics) (s : State) (v v1 v2 : ℚ) (ts : ℕ) :
    (s.meterreadings.1.to_ = some v →
      (applyReading m s).power_consumed_total.low = some v)
  ∧ (s.meterreadings.2.to_ = some v →
      (applyReading m s).power_consumed_total.high = some v)
  ∧ (s.meterreadings.1.by_ = some v →
      (applyReading m s).power_produced_total.low = some v)
  ∧ (s.meterreadings.2.by_ = some v →
      (applyReading m s).power_produced_total.high = some v)
  ∧ (applyReading (applyReading m (energyLowReading v1))
        (energyLowReading v2)).power_consumed_total.low = some v2
  ∧ (applyReading (applyReading m (gasSlaveReading ts v1))
        (gasSlaveReading ts v2)).gas_consumed_total = v2 := by
  rw [applyReading_eq]
  exact ⟨fun h => by simp [h, slotUpd], fun h => by simp [h, slotUpd],
    fun h => by simp [h, slotUpd], fun h => by simp [h, slotUpd], rfl, rfl⟩

/-- Witness for C8: storing 100 kWh then 50 kWh leaves the slot at the
later, smaller value. -/
theorem counters_pass_through_witness :
    (applyReading P1Metrics.init (energyLowReading 100)).power_consumed_total.low
        = some 100
  ∧ (applyReading (applyReading P1Metrics.init (energyLowReading 100))
        (energyLowReading 50)).power_consumed_total.low = some 50 :=
  ⟨(counters_pass_through P1Metrics.init (energyLowReading 100) 100 0 0 0).1 rfl,
   (counters_pass_through P1Metrics.init emptyReading 0 100 50 0).2.2.2.2.1⟩

/-- C9: the collector loop sleeps exactly 5 seconds after every
connection attempt — failed connect or finished/failed connection alike,
with no backoff growth — and for any attempts already processed it
simply continues with the remaining ones (no retry cap, no
termination). -/
theorem collector_loop_fixed_delay (m : P1Metrics) (attempts extra : List ConnAttempt) :
    (collectorRun m attempts).2 = List.replicate attempts.length 5
  ∧ (collectorRun m (attempts ++ extra)).1
      = (collectorRun (collectorRun m attempts).1 extra).1 :=
  ⟨collectorRun_delays m attempts, collectorRun_append m attempts extra⟩

/-- C10, counterexample: collect_metrics can return Err without any
telegram decoding or telegram-to-state conversion failure — when the
initial set_read_timeout call (line 107) fails, it returns Err although
the readout stream (here empty) contains no decode failure at all. -/
theorem collect_metrics_err_without_decode_counterexample :
    (collect_metrics false [] P1Metrics.init).1
        = Except.error CollectError.setReadTimeoutFailed
  ∧ List.all ([] : List ReadoutResult) readoutOk = true :=
  ⟨rfl, rfl⟩

/-- C10, amended: an I/O read error on the socket silently truncates the
byte sequence fed to the decoder (map_while at line 108), and
collect_metrics returns Ok exactly when the set_read_timeout call
succeeds and every readout of the stream decodes successfully — so it
returns Err only on a set_read_timeout failure or a telegram
decode/conversion failure. -/
theorem collect_metrics_err_amended (st : Bool) (stream : List ReadoutResult)
    (m : P1Metrics) (goodBytes : List ℕ) (ioe : IOErrorKind)
    (restBytes : List (Except IOErrorKind ℕ)) :
    bytesMapWhileOk (goodBytes.map Except.ok ++ Except.error ioe :: restBytes)
        = goodBytes
  ∧ (((collect_metrics st stream m).1 = Except.ok ())
      ↔ (st = true ∧ stream.all readoutOk = true)) := by
  refine ⟨bytesMapWhileOk_truncates goodBytes ioe restBytes, ?_⟩
  cases st with
  | false => simp [collect_metrics]
  | true =>
    have h := collectLoop_none_iff stream m
    rcases hl : collectLoop stream m with ⟨o, m1⟩
    rw [hl] at h
    cases o <;> simp_all [collect_metrics, hl]

/-- Witness for the amended C10 theorem: a stream of one valid readout
after a successful set_read_timeout yields Ok. -/
theorem collect_metrics_err_amended_witness :
    (collect_metrics true [Except.ok emptyReading] P1Metrics.init).1 = Except.ok () :=
  ((collect_metrics_err_amended true [Except.ok emptyReading] P1Metrics.init []
      IOErrorKind.timedOut []).2).mpr ⟨rfl, by decide⟩

end P1Exporter
